import Mathlib

/-!
# Verification of the spatial-controls core (vanruesc/delta-controls)

Shallow embedding of the camera-control library: the translation manager
(`src/managers/TranslationManager.ts`), the zoom settings object, and the
controller-level handlers of `SpatialControls`.  Numbers are modelled as
exact rationals; the vector/quaternion primitives of the external `three`
library are embedded by their standard componentwise formulas.  Components
of the repository that are not part of the provided sources (MovementState
transitions, the rotation manager, the `axes` and time constants) are
modelled from the specification and marked as such in their doc comments.
-/

namespace DeltaControls

/-- A 3D vector with rational components, embedding `three.Vector3`. -/
@[ext]
structure Vec3 where
  x : ℚ
  y : ℚ
  z : ℚ
  deriving DecidableEq

instance : Add Vec3 := ⟨fun a b => ⟨a.x + b.x, a.y + b.y, a.z + b.z⟩⟩

instance : Sub Vec3 := ⟨fun a b => ⟨a.x - b.x, a.y - b.y, a.z - b.z⟩⟩

instance : Neg Vec3 := ⟨fun a => ⟨-a.x, -a.y, -a.z⟩⟩

instance : SMul ℚ Vec3 := ⟨fun c v => ⟨c * v.x, c * v.y, c * v.z⟩⟩

@[simp] lemma Vec3.add_x (a b : Vec3) : (a + b).x = a.x + b.x := rfl

@[simp] lemma Vec3.add_y (a b : Vec3) : (a + b).y = a.y + b.y := rfl

@[simp] lemma Vec3.add_z (a b : Vec3) : (a + b).z = a.z + b.z := rfl

@[simp] lemma Vec3.sub_x (a b : Vec3) : (a - b).x = a.x - b.x := rfl

@[simp] lemma Vec3.sub_y (a b : Vec3) : (a - b).y = a.y - b.y := rfl

@[simp] lemma Vec3.sub_z (a b : Vec3) : (a - b).z = a.z - b.z := rfl

@[simp] lemma Vec3.smul_x (c : ℚ) (v : Vec3) : (c • v).x = c * v.x := rfl

@[simp] lemma Vec3.smul_y (c : ℚ) (v : Vec3) : (c • v).y = c * v.y := rfl

@[simp] lemma Vec3.smul_z (c : ℚ) (v : Vec3) : (c • v).z = c * v.z := rfl

@[simp] lemma Vec3.mk_add_mk (a b c d e f : ℚ) :
    (⟨a, b, c⟩ + ⟨d, e, f⟩ : Vec3) = ⟨a + d, b + e, c + f⟩ := rfl

@[simp] lemma Vec3.mk_sub_mk (a b c d e f : ℚ) :
    (⟨a, b, c⟩ - ⟨d, e, f⟩ : Vec3) = ⟨a - d, b - e, c - f⟩ := rfl

@[simp] lemma Vec3.smul_mk (r a b c : ℚ) :
    r • (⟨a, b, c⟩ : Vec3) = ⟨r * a, r * b, r * c⟩ := rfl

/-- Squared Euclidean norm of a vector (kept square-free of radicals). -/
def normSq (v : Vec3) : ℚ := v.x ^ 2 + v.y ^ 2 + v.z ^ 2

/-- A quaternion with rational components, embedding `three.Quaternion`. -/
@[ext]
structure Quat where
  x : ℚ
  y : ℚ
  z : ℚ
  w : ℚ
  deriving DecidableEq

/-- The identity quaternion. -/
def qId : Quat := ⟨0, 0, 0, 1⟩

/-- `Vector3.applyQuaternion` of the external `three` library: computes
`q * v * conj q` componentwise (the standard formula used by three.js). -/
def applyQuaternion (q : Quat) (v : Vec3) : Vec3 :=
  let ix := q.w * v.x + q.y * v.z - q.z * v.y
  let iy := q.w * v.y + q.z * v.x - q.x * v.z
  let iz := q.w * v.z + q.x * v.y - q.y * v.x
  let iw := -q.x * v.x - q.y * v.y - q.z * v.z
  ⟨ix * q.w + iw * (-q.x) + iy * (-q.z) - iz * (-q.y),
   iy * q.w + iw * (-q.y) + iz * (-q.x) - ix * (-q.z),
   iz * q.w + iw * (-q.z) + ix * (-q.y) - iy * (-q.x)⟩

/-- Whether a quaternion has unit norm. -/
def unitQuat (q : Quat) : Prop := q.x ^ 2 + q.y ^ 2 + q.z ^ 2 + q.w ^ 2 = 1

instance (q : Quat) : Decidable (unitQuat q) := by
  unfold unitQuat; infer_instance

/-- Modelled from the spec (§3, §4.1): `MovementState` holds six directional
flags, a boost flag and three tie-break flags.  The class itself is not among
the provided sources; its fields are those read by
`TranslationManager.translate`. -/
structure MovementState where
  forward : Bool
  backward : Bool
  left : Bool
  right : Bool
  up : Bool
  down : Bool
  boost : Bool
  backwardBeforeForward : Bool
  rightBeforeLeft : Bool
  upBeforeDown : Bool
  deriving DecidableEq

/-- Modelled from the spec (§4.1): `MovementState.reset` clears all the
boolean flags.  Also the initial state of a freshly constructed manager. -/
def msReset : MovementState :=
  ⟨false, false, false, false, false, false, false, false, false, false⟩

/-- The six abstract movement directions (`core/Direction`, not among the
provided sources; the enum members are named in the strategy table of
`SpatialControls`). -/
inductive Direction where
  | forward
  | left
  | backward
  | right
  | down
  | up
  deriving DecidableEq

/-- Modelled from the spec (§4.1): the movement-strategy transition on
`MovementState`.  Activation sets the direction's own flag; if the opposite
direction is currently active the pair's tie-break flag is left unchanged,
otherwise it is set to give the newly activated direction priority.
Deactivation clears only the direction's own flag.  (The tie-break flag
`backwardBeforeForward` gives priority to `backward` when `true`, matching
its use in `TranslationManager.translate`; analogously for the other two.) -/
def msExecute (d : Direction) (flag : Bool) (s : MovementState) : MovementState :=
  match d with
  | .forward =>
      { s with forward := flag,
               backwardBeforeForward :=
                 if flag then (if s.backward then s.backwardBeforeForward else false)
                 else s.backwardBeforeForward }
  | .backward =>
      { s with backward := flag,
               backwardBeforeForward :=
                 if flag then (if s.forward then s.backwardBeforeForward else true)
                 else s.backwardBeforeForward }
  | .right =>
      { s with right := flag,
               rightBeforeLeft :=
                 if flag then (if s.left then s.rightBeforeLeft else true)
                 else s.rightBeforeLeft }
  | .left =>
      { s with left := flag,
               rightBeforeLeft :=
                 if flag then (if s.right then s.rightBeforeLeft else false)
                 else s.rightBeforeLeft }
  | .up =>
      { s with up := flag,
               upBeforeDown :=
                 if flag then (if s.down then s.upBeforeDown else true)
                 else s.upBeforeDown }
  | .down =>
      { s with down := flag,
               upBeforeDown :=
                 if flag then (if s.up then s.upBeforeDown else false)
                 else s.upBeforeDown }

/-- The control mode enum (`core/ControlMode`). -/
inductive ControlMode where
  | firstPerson
  | thirdPerson
  deriving DecidableEq

/-- Translation settings as read by the translation manager:
`isEnabled`, `getSensitivity`, `getBoostMultiplier`. -/
structure TranslationSettings where
  enabled : Bool
  sensitivity : ℚ
  boostMultiplier : ℚ
  deriving DecidableEq

/-- General settings: the current control mode and the previous one. -/
structure GeneralSettings where
  mode : ControlMode
  previousMode : ControlMode
  deriving DecidableEq

/-- The slice of the settings object consumed by the embedded code. -/
structure Settings where
  translation : TranslationSettings
  general : GeneralSettings
  deriving DecidableEq

/- Modelled from the spec (§4.3): the constant axes of `core/axes`
(not among the provided sources).  Movement is along local `-Z` for
forward, `+X` for right and `+Y` for up. -/
namespace axes

/-- Local X axis. -/
def x : Vec3 := ⟨1, 0, 0⟩

/-- Local Y axis. -/
def y : Vec3 := ⟨0, 1, 0⟩

/-- Local Z axis. -/
def z : Vec3 := ⟨0, 0, 1⟩

end axes

/-- Modelled from the spec (§4.3): `core/time.MILLISECONDS_TO_SECONDS`
(not among the provided sources) converts milliseconds to seconds. -/
def MILLISECONDS_TO_SECONDS : ℚ := 1 / 1000

/-- The mutable state of a `TranslationManager`: the shared
position/quaternion/target triple plus the manager's private timestamp. -/
@[ext]
structure TMState where
  position : Vec3
  quaternion : Quat
  target : Vec3
  timestamp : ℚ
  deriving DecidableEq

/-- Events dispatched by the managers. -/
inductive Evt where
  | update
  deriving DecidableEq

/-- `TranslationManager.translateOnAxis`: rotates `axis` into world space via
the current quaternion, scales by `distance`, adds the result to the
position (and, in third-person mode, to the target), and dispatches an
update event. -/
def translateOnAxis (s : Settings) (axis : Vec3) (distance : ℚ) (st : TMState) :
    TMState × List Evt :=
  let v := distance • applyQuaternion st.quaternion axis
  let st1 := { st with position := st.position + v }
  let st2 :=
    if s.general.mode = ControlMode.thirdPerson then
      { st1 with target := st1.target + v }
    else st1
  (st2, [Evt.update])

/-- `TranslationManager.translate`: per-axis movement arbitration based on
the movement state and the elapsed time. -/
def translate (s : Settings) (state : MovementState) (deltaTime : ℚ) (st : TMState) :
    TMState × List Evt :=
  let boost := if state.boost then s.translation.boostMultiplier else 1
  let sensitivity := s.translation.sensitivity
  let step := deltaTime * sensitivity * boost
  let r1 :=
    if state.backward && state.forward then
      (if state.backwardBeforeForward then translateOnAxis s axes.z step st
       else translateOnAxis s axes.z (-step) st)
    else if state.backward then translateOnAxis s axes.z step st
    else if state.forward then translateOnAxis s axes.z (-step) st
    else (st, [])
  let r2 :=
    if state.right && state.left then
      (if state.rightBeforeLeft then translateOnAxis s axes.x step r1.1
       else translateOnAxis s axes.x (-step) r1.1)
    else if state.right then translateOnAxis s axes.x step r1.1
    else if state.left then translateOnAxis s axes.x (-step) r1.1
    else (r1.1, [])
  let r3 :=
    if state.up && state.down then
      (if state.upBeforeDown then translateOnAxis s axes.y step r2.1
       else translateOnAxis s axes.y (-step) r2.1)
    else if state.up then translateOnAxis s axes.y step r2.1
    else if state.down then translateOnAxis s axes.y (-step) r2.1
    else (r2.1, [])
  (r3.1, r1.2 ++ r2.2 ++ r3.2)

/-- `TranslationManager.moveTo`: in third-person mode moves the target to the
given point and shifts the position by the same delta; in first-person mode
sets the position directly.  Dispatches an update event. -/
def moveTo (s : Settings) (p : Vec3) (st : TMState) : TMState × List Evt :=
  if s.general.mode = ControlMode.thirdPerson then
    let v := p - st.target
    ({ st with target := p, position := st.position + v }, [Evt.update])
  else
    ({ st with position := p }, [Evt.update])

/-- `TranslationManager.update`: translates using the elapsed time when
translation is enabled, and always advances the internal timestamp. -/
def tmUpdate (s : Settings) (state : MovementState) (st : TMState) (timestamp : ℚ) :
    TMState × List Evt :=
  if s.translation.enabled then
    let elapsed := (timestamp - st.timestamp) * MILLISECONDS_TO_SECONDS
    let r := translate s state elapsed st
    ({ r.1 with timestamp := timestamp }, r.2)
  else
    ({ st with timestamp := timestamp }, [])

/-- The signed per-axis step coefficient implicit in `translate`: the step for
the positive direction of the pair when it alone is held (or when both are
held and the tie-break flag is set), the negated step for the opposite
direction, and zero when neither is held. -/
def axisCoeff (a1 a2 tb : Bool) (step : ℚ) : ℚ :=
  if a1 && a2 then (if tb then step else -step)
  else if a1 then step
  else if a2 then -step
  else 0

/-- The step magnitude of `translate`:
`deltaTime * sensitivity * (boostMultiplier if boost else 1)`. -/
def tstep (s : Settings) (state : MovementState) (deltaTime : ℚ) : ℚ :=
  deltaTime * s.translation.sensitivity *
    (if state.boost then s.translation.boostMultiplier else 1)

/-- A JavaScript number as used by the zoom settings: an exact rational or
positive infinity (`Number.POSITIVE_INFINITY`).  NaN and negative infinity
do not occur in the embedded code paths. -/
inductive JSNum where
  | fin (q : ℚ)
  | posInf
  deriving DecidableEq

/-- JavaScript truthiness of a number: `0` is falsy, every other number
(including infinity) is truthy. -/
def jsTruthy : JSNum → Bool
  | .fin q => decide (q ≠ 0)
  | .posInf => true

/-- Boolean `≤` on `JSNum`, with infinity as the top element. -/
def jsLeb : JSNum → JSNum → Bool
  | .fin a, .fin b => decide (a ≤ b)
  | _, .posInf => true
  | .posInf, .fin _ => false

/-- Boolean `<` on `JSNum`. -/
def jsLtb : JSNum → JSNum → Bool
  | .fin a, .fin b => decide (a < b)
  | .fin _, .posInf => true
  | .posInf, _ => false

/-- `Math.max` on the embedded numbers. -/
def jsMax (a b : JSNum) : JSNum := if jsLeb a b then b else a

/-- `Math.min` on the embedded numbers. -/
def jsMin (a b : JSNum) : JSNum := if jsLeb a b then a else b

/-- The JavaScript `||` operator restricted to numbers: the first operand if
it is truthy, the second otherwise. -/
def jsOr (a b : JSNum) : JSNum := if jsTruthy a then a else b

/-- The data fields of `ZoomSettings`. -/
structure ZoomSettings where
  enabled : Bool
  inverted : Bool
  minDistance : JSNum
  maxDistance : JSNum
  sensitivity : JSNum
  deriving DecidableEq

/-- The `ZoomSettings` constructor defaults. -/
def zoomDefault : ZoomSettings :=
  ⟨true, false, .fin (1 / 1000000), .posInf, .fin 1⟩

/-- `ZoomSettings.setMinDistance`: clamps the new minimum into
`[1e-6, +Infinity]`. -/
def setMinDistance (value : JSNum) (s : ZoomSettings) : ZoomSettings :=
  { s with minDistance := jsMin (jsMax value (.fin (1 / 1000000))) .posInf }

/-- `ZoomSettings.setMaxDistance`: clamps the new maximum into
`[minDistance, +Infinity]`. -/
def setMaxDistance (value : JSNum) (s : ZoomSettings) : ZoomSettings :=
  { s with maxDistance := jsMin (jsMax value s.minDistance) .posInf }

/-- `ZoomSettings.setRange`: assigns both distances verbatim. -/
def setRange (minValue maxValue : JSNum) (s : ZoomSettings) : ZoomSettings :=
  { s with minDistance := minValue, maxDistance := maxValue }

/-- The JSON representation of zoom settings (`ZoomSettingsJSON`). -/
structure ZoomSettingsJSON where
  enabled : Bool
  inverted : Bool
  minDistance : JSNum
  maxDistance : JSNum
  sensitivity : JSNum
  deriving DecidableEq

/-- `ZoomSettings.fromJSON`: copies the JSON fields, replacing a falsy
`maxDistance` with positive infinity via `||`. -/
def fromJSON (json : ZoomSettingsJSON) : ZoomSettings :=
  { enabled := json.enabled
    inverted := json.inverted
    minDistance := json.minDistance
    maxDistance := jsOr json.maxDistance .posInf
    sensitivity := json.sensitivity }

/-- `ZoomSettings.toJSON`: serializes the five fields. -/
def toJSON (s : ZoomSettings) : ZoomSettingsJSON :=
  { enabled := s.enabled
    inverted := s.inverted
    minDistance := s.minDistance
    maxDistance := s.maxDistance
    sensitivity := s.sensitivity }

/-- The invariant named by the spec for the zoom distance configuration:
`0 < minDistance ≤ maxDistance`. -/
def ZoomInvariant (s : ZoomSettings) : Prop :=
  jsLtb (.fin 0) s.minDistance = true ∧ jsLeb s.minDistance s.maxDistance = true

/-- The shared position/target/quaternion triple of `SpatialControls`, as
seen by the mode-switch logic. -/
@[ext]
structure OState where
  position : Vec3
  target : Vec3
  quaternion : Quat
  deriving DecidableEq

/-- The mode-switch assignments of `SpatialControls.onSettingsChanged`:
switching to third person copies the target into a scratch vector, moves the
target to the old position and subtracts the old target from the position;
switching to first person copies the target into the position and rebuilds
the target as `(0,0,-1)` rotated by the current quaternion. -/
def onModeChangeAssign (mode : ControlMode) (s : OState) : OState :=
  match mode with
  | .thirdPerson => { s with target := s.position, position := s.position - s.target }
  | .firstPerson => { s with position := s.target,
                             target := applyQuaternion s.quaternion ⟨0, 0, -1⟩ }

/-- Modelled from the spec (§4.2): the roll-free look-at orientation produced
by `RotationManager.updateQuaternion` (not among the provided sources).  The
quaternion is unit, rotates the local forward axis `(0,0,-1)` onto the view
direction `dir`, and carries no roll: the rotated right axis stays
horizontal and the rotated up axis points upward. -/
def IsLookAtQuat (dir : Vec3) (q : Quat) : Prop :=
  unitQuat q ∧
  (∃ c : ℚ, 0 < c ∧ applyQuaternion q ⟨0, 0, -1⟩ = c • dir) ∧
  (applyQuaternion q ⟨1, 0, 0⟩).y = 0 ∧
  0 ≤ (applyQuaternion q ⟨0, 1, 0⟩).y

/-- Modelled from the spec (§3, §4.2): a position/target offset is
non-degenerate when the derived spherical radius is at least the default
minimum distance and the polar angle is away from the poles, so that the
spherical refresh applies no clamping. -/
def NonDegOffset (v : Vec3) : Prop :=
  (1 / 1000000 : ℚ) ^ 2 ≤ normSq v ∧ ¬(v.x = 0 ∧ v.z = 0)

/-- Modelled from the spec (§4.2, §4.5): a mode-change notification that
switches to third person.  The deterministic part is the assignment block of
`onSettingsChanged`; the subsequent
`updateSpherical().updatePosition().updateQuaternion()` chain of the (absent)
rotation manager re-derives the spherical state from the new offset — which,
in the non-degenerate regime, reproduces the position exactly — and replaces
the quaternion with the roll-free look-at orientation toward the target. -/
def ModeSwitchToThirdPerson (s s' : OState) : Prop :=
  s'.target = (onModeChangeAssign ControlMode.thirdPerson s).target ∧
  s'.position = (onModeChangeAssign ControlMode.thirdPerson s).position ∧
  NonDegOffset (s'.position - s'.target) ∧
  IsLookAtQuat (s'.target - s'.position) s'.quaternion

/-- Modelled from the spec (§4.2, §4.5): a mode-change notification that
switches to first person, analogous to `ModeSwitchToThirdPerson`
(`updatePosition` is a no-op in first-person mode). -/
def ModeSwitchToFirstPerson (s s' : OState) : Prop :=
  s'.position = (onModeChangeAssign ControlMode.firstPerson s).position ∧
  s'.target = (onModeChangeAssign ControlMode.firstPerson s).target ∧
  NonDegOffset (s'.target - s'.position) ∧
  IsLookAtQuat (s'.target - s'.position) s'.quaternion

/-- The formalization of claim C4's description of the third-person switch:
target moves to the old position, and the position is relocated backward
along the (normalized) view direction by the current spherical radius
`r = dist(position, target)`. -/
def ClaimedThirdPersonSwitch (s s' : OState) : Prop :=
  s'.target = s.position ∧
  ∃ r : ℚ, 0 ≤ r ∧ r ^ 2 = normSq (s.position - s.target) ∧
    ∃ d : Vec3, normSq d = 1 ∧
      (∃ c : ℚ, 0 < c ∧ d = c • applyQuaternion s.quaternion ⟨0, 0, -1⟩) ∧
      s'.position = s.position - r • d

/-- The formalization of claim C4's description of the first-person switch:
position collapses to the old target, and the new target is a unit-distance
point ahead of the new position along the view direction. -/
def ClaimedFirstPersonSwitch (s s' : OState) : Prop :=
  s'.position = s.target ∧
  ∃ d : Vec3, normSq d = 1 ∧
    (∃ c : ℚ, 0 < c ∧ d = c • applyQuaternion s.quaternion ⟨0, 0, -1⟩) ∧
    s'.target = s'.position + d

/-- The document-level state observed by the controller's event handlers. -/
structure DomState where
  lockedOnElement : Bool
  hidden : Bool
  deriving DecidableEq

/-- The controller-side state mutated by the `SpatialControls` handlers: the
movement state of the translation manager, the dynamic `mousemove` /
`touchmove` listener registrations, the bulk of the static listeners, and
the internal enabled flag. -/
structure ControllerState where
  movementState : MovementState
  mousemoveListener : Bool
  touchmoveListener : Bool
  documentListeners : Bool
  enabled : Bool
  deriving DecidableEq

/-- `SpatialControls.handlePointerLockEvent`: registers the `mousemove`
listener while the pointer is locked on the element and removes it
otherwise.  It does not touch the movement state. -/
def handlePointerLockEvent (dom : DomState) (c : ControllerState) : ControllerState :=
  if dom.lockedOnElement then { c with mousemoveListener := true }
  else { c with mousemoveListener := false }

/-- `SpatialControls.handleVisibilityChangeEvent`: on visibility loss resets
the movement state and removes the move listeners. -/
def handleVisibilityChangeEvent (dom : DomState) (c : ControllerState) : ControllerState :=
  if dom.hidden then
    { c with movementState := msReset,
             mousemoveListener := false,
             touchmoveListener := false }
  else c

/-- `SpatialControls.setEnabled`: unconditionally resets the movement state,
then registers or unregisters the listeners according to the transition of
the enabled flag.  (The call also exits any pointer lock; that only mutates
document state and is not needed by the claims.) -/
def setEnabled (c : ControllerState) (enabled : Bool := true) : ControllerState :=
  let c1 := { c with movementState := msReset }
  let c2 :=
    if enabled && !c1.enabled then { c1 with documentListeners := true }
    else if !enabled && c1.enabled then
      { c1 with documentListeners := false,
                mousemoveListener := false,
                touchmoveListener := false }
    else c1
  { c2 with enabled := enabled }

/-- `SpatialControls.update`, with the rotation manager's update — whose code
is not among the provided sources — abstracted as a function `rmU` on the
shared state: the controller first runs the rotation update, then the
translation update on its result. -/
def scUpdate (rmU : TMState → ℚ → TMState) (s : Settings) (state : MovementState)
    (st : TMState) (timestamp : ℚ) : TMState × List Evt :=
  tmUpdate s state (rmU st timestamp) timestamp

/-! ## Helper lemmas -/

/-- The net effect of one axis block of `translate` on the manager state. -/
def axisBlockResult (s : Settings) (c : ℚ) (axis : Vec3) (st : TMState) : TMState :=
  { st with
    position := st.position + c • applyQuaternion st.quaternion axis,
    target :=
      if s.general.mode = ControlMode.thirdPerson then
        st.target + c • applyQuaternion st.quaternion axis
      else st.target }

lemma zero_smul_vec (v : Vec3) : (0 : ℚ) • v = (⟨0, 0, 0⟩ : Vec3) := by
  ext <;> simp

lemma add_zero_vec (v : Vec3) : v + (⟨0, 0, 0⟩ : Vec3) = v := by
  ext <;> simp

lemma axisBlockResult_zero (s : Settings) (axis : Vec3) (st : TMState) :
    axisBlockResult s 0 axis st = st := by
  unfold axisBlockResult
  split_ifs <;> ext <;> simp

lemma axisBlockResult_quaternion (s : Settings) (c : ℚ) (axis : Vec3) (st : TMState) :
    (axisBlockResult s c axis st).quaternion = st.quaternion := rfl

lemma axisBlockResult_timestamp (s : Settings) (c : ℚ) (axis : Vec3) (st : TMState) :
    (axisBlockResult s c axis st).timestamp = st.timestamp := rfl

lemma axisBlock_fst (s : Settings) (a1 a2 tb : Bool) (axis : Vec3) (step : ℚ)
    (st : TMState) :
    (if a1 && a2 then
       (if tb then translateOnAxis s axis step st else translateOnAxis s axis (-step) st)
     else if a1 then translateOnAxis s axis step st
     else if a2 then translateOnAxis s axis (-step) st
     else (st, ([] : List Evt))).1
      = axisBlockResult s (axisCoeff a1 a2 tb step) axis st := by
  cases a1 <;> cases a2 <;> cases tb <;>
    simp [translateOnAxis, axisCoeff, axisBlockResult] <;>
    split_ifs <;> (first | rfl | (ext <;> simp))

/-- `translate` is the sequential composition of the three axis blocks. -/
lemma translate_fst (s : Settings) (state : MovementState) (dt : ℚ) (st : TMState) :
    (translate s state dt st).1 =
      axisBlockResult s
        (axisCoeff state.up state.down state.upBeforeDown (tstep s state dt)) axes.y
        (axisBlockResult s
          (axisCoeff state.right state.left state.rightBeforeLeft (tstep s state dt)) axes.x
          (axisBlockResult s
            (axisCoeff state.backward state.forward state.backwardBeforeForward
              (tstep s state dt)) axes.z st)) := by
  unfold translate tstep
  simp only [axisBlock_fst]

/-- The position after `translate`: the starting position plus one signed,
quaternion-rotated step per axis. -/
lemma translate_position (s : Settings) (state : MovementState) (dt : ℚ) (st : TMState) :
    (translate s state dt st).1.position =
      st.position
      + axisCoeff state.backward state.forward state.backwardBeforeForward
          (tstep s state dt) • applyQuaternion st.quaternion axes.z
      + axisCoeff state.right state.left state.rightBeforeLeft
          (tstep s state dt) • applyQuaternion st.quaternion axes.x
      + axisCoeff state.up state.down state.upBeforeDown
          (tstep s state dt) • applyQuaternion st.quaternion axes.y := by
  rw [translate_fst]; rfl

lemma translate_quaternion (s : Settings) (state : MovementState) (dt : ℚ) (st : TMState) :
    (translate s state dt st).1.quaternion = st.quaternion := by
  rw [translate_fst]; rfl

lemma translate_timestamp (s : Settings) (state : MovementState) (dt : ℚ) (st : TMState) :
    (translate s state dt st).1.timestamp = st.timestamp := by
  rw [translate_fst]; rfl

lemma tmUpdate_enabled (s : Settings) (state : MovementState) (st : TMState) (ts : ℚ)
    (h : s.translation.enabled = true) :
    tmUpdate s state st ts =
      ({ (translate s state ((ts - st.timestamp) * MILLISECONDS_TO_SECONDS) st).1 with
          timestamp := ts },
       (translate s state ((ts - st.timestamp) * MILLISECONDS_TO_SECONDS) st).2) := by
  unfold tmUpdate
  rw [h]
  simp

lemma axisCoeff_cases (a1 a2 tb : Bool) (step : ℚ) :
    axisCoeff a1 a2 tb step = 0 ∨ axisCoeff a1 a2 tb step = step ∨
      axisCoeff a1 a2 tb step = -step := by
  cases a1 <;> cases a2 <;> cases tb <;> simp [axisCoeff]

lemma jsMin_posInf (a : JSNum) : jsMin a .posInf = a := by
  cases a <;> simp [jsMin, jsLeb]

lemma jsLeb_max_right (v m : JSNum) : jsLeb m (jsMax v m) = true := by
  cases v with
  | posInf => cases m <;> simp [jsMax, jsLeb]
  | fin a =>
    cases m with
    | posInf => simp [jsMax, jsLeb]
    | fin b =>
      rcases le_or_lt a b with h | h
      · simp [jsMax, jsLeb, h]
      · have h' : ¬(a ≤ b) := not_le.mpr h
        simp [jsMax, jsLeb, h']
        exact le_of_lt h

/-! ## Concrete fixtures used by the claim theorems -/

/-- Settings with translation enabled, sensitivity 1, first-person mode. -/
def c1Settings : Settings := ⟨⟨true, 1, 2⟩, ⟨.firstPerson, .firstPerson⟩⟩

/-- A manager state at the origin with identity orientation. -/
def c1TM : TMState := ⟨⟨0, 0, 0⟩, qId, ⟨0, 0, -1⟩, 0⟩

/-- The movement state after pressing backward, then forward, with both keys
still held. -/
def c1State : MovementState := msExecute .forward true (msExecute .backward true msReset)

/-- The concrete-scenario settings of the spec: translation enabled with
sensitivity 2.0, first-person mode. -/
def c2Settings : Settings := ⟨⟨true, 2, 2⟩, ⟨.firstPerson, .firstPerson⟩⟩

/-- Movement state with only the forward flag active. -/
def c2State : MovementState := { msReset with forward := true }

/-- Identity quaternion, position at the origin, target `(0,0,-1)`, cold
timestamp baseline. -/
def c2TM : TMState := ⟨⟨0, 0, 0⟩, qId, ⟨0, 0, -1⟩, 0⟩

/-! ## Claim theorems -/

/-- Claim C1 (counterexample): pressing backward and then forward — so that
forward is the most recently activated of the pair and both remain held —
makes `translate` move along local `+Z`, the backward direction of the
first-activated key, not along `-Z` as most-recently-activated dominance
would require. -/
theorem c1_counterexample :
    c1State.backward = true ∧ c1State.forward = true ∧
    (translate c1Settings c1State 1 c1TM).1.position = (⟨0, 0, 1⟩ : Vec3) ∧
    (⟨0, 0, 1⟩ : Vec3) ≠ (⟨0, 0, -1⟩ : Vec3) := by
  refine ⟨by decide, by decide, ?_, by norm_num⟩
  rw [translate_position]
  simp [c1State, c1Settings, c1TM, msExecute, msReset, axisCoeff, tstep, qId,
    applyQuaternion, axes.x, axes.y, axes.z]

/-- Claim C1 (amended): the per-tick translate step resolves each opposing
pair deterministically — both held: along the direction selected by the
pair's tie-break flag (`+Z` under `backwardBeforeForward`, and analogously
on X and Y); exactly one held: along that direction (`+Z` backward, `-Z`
forward, `+X` right, `-X` left, `+Y` up, `-Y` down); neither held: no
movement on that axis — and, per the §4.1 transition contract, while both
opposing flags remain held the tie-break flag keeps selecting the FIRST
activated of the pair (activating a direction whose opposite is already held
leaves the flag unchanged). -/
theorem c1_pair_resolution :
    (∀ (s : Settings) (state : MovementState) (dt : ℚ) (st : TMState),
      (translate s state dt st).1.position =
        st.position
        + axisCoeff state.backward state.forward state.backwardBeforeForward
            (tstep s state dt) • applyQuaternion st.quaternion axes.z
        + axisCoeff state.right state.left state.rightBeforeLeft
            (tstep s state dt) • applyQuaternion st.quaternion axes.x
        + axisCoeff state.up state.down state.upBeforeDown
            (tstep s state dt) • applyQuaternion st.quaternion axes.y) ∧
    (∀ state : MovementState, state.forward = false →
      (msExecute .forward true (msExecute .backward true state)).backwardBeforeForward
        = true) ∧
    (∀ state : MovementState, state.backward = false →
      (msExecute .backward true (msExecute .forward true state)).backwardBeforeForward
        = false) ∧
    (∀ state : MovementState, state.left = false →
      (msExecute .left true (msExecute .right true state)).rightBeforeLeft = true) ∧
    (∀ state : MovementState, state.right = false →
      (msExecute .right true (msExecute .left true state)).rightBeforeLeft = false) ∧
    (∀ state : MovementState, state.down = false →
      (msExecute .down true (msExecute .up true state)).upBeforeDown = true) ∧
    (∀ state : MovementState, state.up = false →
      (msExecute .up true (msExecute .down true state)).upBeforeDown = false) := by
  refine ⟨fun s state dt st => translate_position s state dt st, ?_, ?_, ?_, ?_, ?_, ?_⟩ <;>
    intro state h <;> simp [msExecute, h]

/-- Witness for C1: with all keys initially released, pressing backward and
then forward leaves the tie-break flag selecting backward. -/
theorem c1_pair_resolution_witness :
    msReset.forward = false ∧
    (msExecute .forward true (msExecute .backward true msReset)).backwardBeforeForward
      = true :=
  ⟨rfl, c1_pair_resolution.2.1 msReset rfl⟩

/-- Claim C2: from the spec's concrete scenario (identity quaternion, origin
position, target `(0,0,-1)`, first-person mode, sensitivity 2.0, boost off,
forward active), `update(0)` then `update(500)` yields an elapsed time of
`0.5` seconds and position `(0,0,-1)`; in general every axis step coefficient
of `translate` is `0` or `±(deltaTime * sensitivity * boostFactor)`. -/
theorem c2_time_scaled_translation :
    ((500 : ℚ) - (tmUpdate c2Settings c2State c2TM 0).1.timestamp)
        * MILLISECONDS_TO_SECONDS = 1 / 2 ∧
    (tmUpdate c2Settings c2State (tmUpdate c2Settings c2State c2TM 0).1 500).1.position
      = (⟨0, 0, -1⟩ : Vec3) ∧
    (tmUpdate c2Settings c2State (tmUpdate c2Settings c2State c2TM 0).1 500).1.target
      = (⟨0, 0, -1⟩ : Vec3) ∧
    (∀ (s : Settings) (state : MovementState) (dt : ℚ) (st : TMState),
      ∃ cz cx cy : ℚ,
        (translate s state dt st).1.position =
          st.position + cz • applyQuaternion st.quaternion axes.z
            + cx • applyQuaternion st.quaternion axes.x
            + cy • applyQuaternion st.quaternion axes.y ∧
        (cz = 0 ∨ cz = tstep s state dt ∨ cz = -tstep s state dt) ∧
        (cx = 0 ∨ cx = tstep s state dt ∨ cx = -tstep s state dt) ∧
        (cy = 0 ∨ cy = tstep s state dt ∨ cy = -tstep s state dt)) := by
  refine ⟨?_, ?_, ?_, ?_⟩
  · simp [tmUpdate, translate, translateOnAxis, c2Settings, c2State, c2TM, msReset,
      qId, applyQuaternion, axes.x, axes.y, axes.z, MILLISECONDS_TO_SECONDS]
    norm_num
  · simp [tmUpdate, translate, translateOnAxis, c2Settings, c2State, c2TM, msReset,
      qId, applyQuaternion, axes.x, axes.y, axes.z, MILLISECONDS_TO_SECONDS]
    norm_num
  · simp [tmUpdate, translate, translateOnAxis, c2Settings, c2State, c2TM, msReset,
      qId, applyQuaternion, axes.x, axes.y, axes.z, MILLISECONDS_TO_SECONDS]
  · intro s state dt st
    exact ⟨_, _, _, translate_position s state dt st,
      axisCoeff_cases _ _ _ _, axisCoeff_cases _ _ _ _, axisCoeff_cases _ _ _ _⟩

/-- Claim C5 (counterexample): `setRange` assigns both distances verbatim and
can break `0 < minDistance ≤ maxDistance` outright, and even the clamping
`setMinDistance` can push the minimum above the maximum. -/
theorem c5_counterexample :
    ¬ ZoomInvariant (setRange (.fin (-1)) (.fin (-2)) zoomDefault) ∧
    ZoomInvariant (setMaxDistance (.fin 5) zoomDefault) ∧
    ¬ ZoomInvariant (setMinDistance (.fin 10) (setMaxDistance (.fin 5) zoomDefault)) := by
  refine ⟨?_, ⟨?_, ?_⟩, ?_⟩ <;>
    simp [ZoomInvariant, setRange, setMinDistance, setMaxDistance, zoomDefault,
      jsMin, jsMax, jsLeb, jsLtb] <;> norm_num

/-- Claim C5 (amended): `setMaxDistance` preserves the invariant
`0 < minDistance ≤ maxDistance` by clamping the new maximum into
`[minDistance, +Infinity]`; `setMinDistance` clamps the new minimum into
`[1e-6, +Infinity]`, which preserves positivity but can exceed the current
maximum; `setRange` assigns both values verbatim with no clamping. -/
theorem c5_zoom_setters :
    (∀ (s : ZoomSettings) (v : JSNum),
      ZoomInvariant s → ZoomInvariant (setMaxDistance v s)) ∧
    (∀ (s : ZoomSettings) (v : JSNum),
      jsLtb (.fin 0) (setMinDistance v s).minDistance = true) ∧
    (∀ (s : ZoomSettings) (a b : JSNum),
      (setRange a b s).minDistance = a ∧ (setRange a b s).maxDistance = b) := by
  refine ⟨?_, ?_, fun s a b => ⟨rfl, rfl⟩⟩
  · rintro s v ⟨h1, h2⟩
    refine ⟨h1, ?_⟩
    show jsLeb s.minDistance (jsMin (jsMax v s.minDistance) .posInf) = true
    rw [jsMin_posInf]
    exact jsLeb_max_right v s.minDistance
  · intro s v
    show jsLtb (.fin 0) (jsMin (jsMax v (.fin (1 / 1000000))) .posInf) = true
    rw [jsMin_posInf]
    cases v with
    | posInf => rfl
    | fin a =>
      unfold jsMax
      split_ifs with hc
      · simp only [jsLtb, decide_eq_true_eq]
        norm_num
      · simp only [jsLeb, decide_eq_true_eq] at hc
        push_neg at hc
        simp only [jsLtb, decide_eq_true_eq]
        linarith

/-- Witness for C5: the default settings satisfy the invariant and
`setMaxDistance 5` keeps it. -/
theorem c5_zoom_setters_witness :
    ZoomInvariant zoomDefault ∧ ZoomInvariant (setMaxDistance (.fin 5) zoomDefault) :=
  ⟨⟨by norm_num [zoomDefault, jsLtb], by norm_num [zoomDefault, jsLeb]⟩,
   c5_zoom_setters.1 zoomDefault (.fin 5)
     ⟨by norm_num [zoomDefault, jsLtb], by norm_num [zoomDefault, jsLeb]⟩⟩

/-- A controller state in which a forward movement is in progress. -/
def c6Controller : ControllerState := ⟨{ msReset with forward := true }, true, false, true, true⟩

/-- A document state after a pointer-lock exit, with the page still visible. -/
def c6Dom : DomState := ⟨false, false⟩

/-- Claim C6 (counterexample): a pointer-lock exit does not reset the
movement state — the forward flag survives `handlePointerLockEvent`. -/
theorem c6_counterexample :
    c6Controller.movementState.forward = true ∧
    (handlePointerLockEvent c6Dom c6Controller).movementState
      = c6Controller.movementState ∧
    (handlePointerLockEvent c6Dom c6Controller).movementState ≠ msReset := by
  decide

/-- Claim C6 (amended): loss of focus (document hidden) and any
`setEnabled` call (enabling or disabling) immediately reset the movement
state, clearing all directional, boost and tie-break flags; a pointer-lock
change does not touch the movement state — it only manages the `mousemove`
listener. -/
theorem c6_cancellation (dom : DomState) (c : ControllerState) (e : Bool)
    (h : dom.hidden = true) :
    (handleVisibilityChangeEvent dom c).movementState = msReset ∧
    (setEnabled c e).movementState = msReset ∧
    (handlePointerLockEvent dom c).movementState = c.movementState := by
  refine ⟨?_, ?_, ?_⟩
  · simp [handleVisibilityChangeEvent, h]
  · unfold setEnabled
    dsimp only
    split_ifs <;> rfl
  · unfold handlePointerLockEvent
    split_ifs <;> rfl

/-- Witness for C6: on a hidden document the visibility handler resets the
movement state. -/
theorem c6_cancellation_witness :
    (⟨false, true⟩ : DomState).hidden = true ∧
    (handleVisibilityChangeEvent ⟨false, true⟩ c6Controller).movementState = msReset :=
  ⟨rfl, (c6_cancellation ⟨false, true⟩ c6Controller false rfl).1⟩

/-- A first-person state whose quaternion carries a half-turn of roll about
the view axis: it looks along `(0,0,-1)` but is upside down. -/
def c3s0 : OState := ⟨⟨0, 0, 0⟩, ⟨0, 0, -1⟩, ⟨0, 0, 1, 0⟩⟩

/-- The state after switching `c3s0` to third person: the assignments of
`onSettingsChanged` followed by the roll-free look-at refresh. -/
def c3s1 : OState := ⟨⟨0, 0, 1⟩, ⟨0, 0, 0⟩, qId⟩

/-- The state after switching `c3s1` back to first person. -/
def c3s2 : OState := ⟨⟨0, 0, 0⟩, ⟨0, 0, -1⟩, qId⟩

lemma c3_step1 : ModeSwitchToThirdPerson c3s0 c3s1 := by
  refine ⟨?_, ?_, ⟨?_, ?_⟩, ?_, ⟨1, ?_, ?_⟩, ?_, ?_⟩ <;>
    norm_num [c3s0, c3s1, onModeChangeAssign, normSq, unitQuat, qId, applyQuaternion]

lemma c3_step2 : ModeSwitchToFirstPerson c3s1 c3s2 := by
  refine ⟨?_, ?_, ⟨?_, ?_⟩, ?_, ⟨1, ?_, ?_⟩, ?_, ?_⟩ <;>
    norm_num [c3s1, c3s2, onModeChangeAssign, normSq, unitQuat, qId, applyQuaternion]

/-- Claim C3 (counterexample): starting from position `(0,0,0)`, target
`(0,0,-1)` and the half-turn roll quaternion `(0,0,1,0)`, switching
first-person → third-person → first-person with no intervening input ends
with the identity quaternion: the quaternion is not preserved (the final
orientation even maps the X axis differently), because the refresh replaces
it with the canonical roll-free look-at orientation. -/
theorem c3_counterexample :
    ModeSwitchToThirdPerson c3s0 c3s1 ∧ ModeSwitchToFirstPerson c3s1 c3s2 ∧
    c3s2.quaternion ≠ c3s0.quaternion ∧
    applyQuaternion c3s2.quaternion axes.x ≠ applyQuaternion c3s0.quaternion axes.x :=
  ⟨c3_step1, c3_step2, by norm_num [c3s0, c3s2, qId],
   by norm_num [c3s0, c3s2, qId, applyQuaternion, axes.x]⟩

/-- Claim C3 (amended): a first-person → third-person → first-person mode
round trip with no intervening input preserves the position exactly, but the
final quaternion is (only) the canonical roll-free look-at orientation
toward the final view direction — a starting quaternion that is not already
of that form is not preserved. -/
theorem c3_mode_switch_round_trip (s s1 s2 : OState)
    (h1 : ModeSwitchToThirdPerson s s1) (h2 : ModeSwitchToFirstPerson s1 s2) :
    s2.position = s.position ∧
    IsLookAtQuat (s2.target - s2.position) s2.quaternion := by
  obtain ⟨ht1, hp1, hn1, hq1⟩ := h1
  obtain ⟨hp2, ht2, hn2, hq2⟩ := h2
  refine ⟨?_, hq2⟩
  have e1 : s2.position = s1.target := hp2
  have e2 : s1.target = s.position := ht1
  exact e1.trans e2

/-- Witness for C3 (amended): the round trip from `c3s0` restores the
position `(0,0,0)` and ends in a canonical look-at orientation. -/
theorem c3_mode_switch_round_trip_witness :
    c3s2.position = c3s0.position ∧
    IsLookAtQuat (c3s2.target - c3s2.position) c3s2.quaternion :=
  c3_mode_switch_round_trip c3s0 c3s1 c3s2 c3_step1 c3_step2

/-- A consistent first-person state at distance 3 from its target: position
`(0,0,2)`, unit target `(0,0,-1)`, identity orientation. -/
def c4s : OState := ⟨⟨0, 0, 2⟩, ⟨0, 0, -1⟩, qId⟩

/-- Claim C4 (counterexample): at `c4s` the third-person switch moves the
position to `(0,0,3)` — backward along the old target vector by one unit —
not to `(0,0,5)` as "backward along the view direction by the spherical
radius `3`" would require; and the first-person switch sets the target to
the plain unit view vector `(0,0,-1)`, not to a unit-distance point ahead of
the new position. -/
theorem c4_counterexample :
    ¬ ClaimedThirdPersonSwitch c4s (onModeChangeAssign ControlMode.thirdPerson c4s) ∧
    ¬ ClaimedFirstPersonSwitch c4s (onModeChangeAssign ControlMode.firstPerson c4s) := by
  constructor
  · rintro ⟨-, r, hr0, hr2, d, hd1, ⟨c, hc, hdc⟩, hpos⟩
    have hr9 : r ^ 2 = 9 := by
      rw [hr2]; norm_num [c4s, normSq]
    have hdx : d.x = 0 := by
      rw [hdc]; norm_num [c4s, qId, applyQuaternion]
    have hdy : d.y = 0 := by
      rw [hdc]; norm_num [c4s, qId, applyQuaternion]
    have hdz : d.z = -c := by
      rw [hdc]; norm_num [c4s, qId, applyQuaternion]
    have hc2 : c ^ 2 = 1 := by
      unfold normSq at hd1
      rw [hdx, hdy, hdz] at hd1
      nlinarith [hd1]
    have hc1 : c = 1 := by
      have h4 : (c - 1) * (c + 1) = 0 := by nlinarith [hc2]
      rcases mul_eq_zero.mp h4 with h5 | h5
      · linarith
      · linarith
    have hz := congrArg Vec3.z hpos
    rw [hc1] at hdz
    simp [onModeChangeAssign, c4s, hdz] at hz
    have hr1 : r = 1 := by linarith
    rw [hr1] at hr9
    norm_num at hr9
  · rintro ⟨-, d, hd1, ⟨c, hc, hdc⟩, htar⟩
    have hdz : d.z = -c := by
      rw [hdc]; norm_num [c4s, qId, applyQuaternion]
    have hdx : d.x = 0 := by
      rw [hdc]; norm_num [c4s, qId, applyQuaternion]
    have hdy : d.y = 0 := by
      rw [hdc]; norm_num [c4s, qId, applyQuaternion]
    have hc2 : c ^ 2 = 1 := by
      unfold normSq at hd1
      rw [hdx, hdy, hdz] at hd1
      nlinarith [hd1]
    have hc1 : c = 1 := by
      have h4 : (c - 1) * (c + 1) = 0 := by nlinarith [hc2]
      rcases mul_eq_zero.mp h4 with h5 | h5
      · linarith
      · linarith
    have hz := congrArg Vec3.z htar
    rw [hc1] at hdz
    simp [onModeChangeAssign, c4s, qId, applyQuaternion, hdz] at hz

/-- Claim C4 (amended): on a mode-change notification, switching to third
person sets the target to the old position and the position to the old
position minus the old target (one step backward along the old target
vector); switching to first person sets the position to the old target and
the target to `(0,0,-1)` rotated by the current quaternion — the unit view
vector anchored at the origin, not at the new position. -/
theorem c4_mode_switch_assignments (s : OState) :
    (onModeChangeAssign ControlMode.thirdPerson s).target = s.position ∧
    (onModeChangeAssign ControlMode.thirdPerson s).position = s.position - s.target ∧
    (onModeChangeAssign ControlMode.firstPerson s).position = s.target ∧
    (onModeChangeAssign ControlMode.firstPerson s).target =
      applyQuaternion s.quaternion ⟨0, 0, -1⟩ :=
  ⟨rfl, rfl, rfl, rfl⟩

/-- First-person settings fixture for the `moveTo` witness. -/
def c7fpSettings : Settings := ⟨⟨true, 1, 1⟩, ⟨.firstPerson, .firstPerson⟩⟩

/-- Third-person settings fixture for the `moveTo` witness. -/
def c7tpSettings : Settings := ⟨⟨true, 1, 1⟩, ⟨.thirdPerson, .thirdPerson⟩⟩

/-- A generic manager state fixture. -/
def c7TM : TMState := ⟨⟨1, 2, 3⟩, qId, ⟨4, 5, 6⟩, 0⟩

/-- A generic destination point. -/
def c7P : Vec3 := ⟨7, 8, 9⟩

/-- Claim C7: `moveTo p` in first-person mode sets the position to `p` and
leaves the target unchanged; in third-person mode it sets the target to `p`
and translates the position by `p` minus the old target, preserving the
position-to-target offset exactly; in both modes it emits one update
event. -/
theorem c7_moveTo (s : Settings) (p : Vec3) (st : TMState) :
    (s.general.mode = ControlMode.firstPerson →
      (moveTo s p st).1.position = p ∧
      (moveTo s p st).1.target = st.target ∧
      (moveTo s p st).2 = [Evt.update]) ∧
    (s.general.mode = ControlMode.thirdPerson →
      (moveTo s p st).1.target = p ∧
      (moveTo s p st).1.position = st.position + (p - st.target) ∧
      (moveTo s p st).1.position - (moveTo s p st).1.target
        = st.position - st.target ∧
      (moveTo s p st).2 = [Evt.update]) := by
  constructor
  · intro h
    simp [moveTo, h]
  · intro h
    refine ⟨by simp [moveTo, h], by simp [moveTo, h], ?_, by simp [moveTo, h]⟩
    simp only [moveTo, h]
    simp only [reduceIte]
    ext <;> simp <;> ring

/-- Witness for C7: `moveTo` at concrete first- and third-person fixtures. -/
theorem c7_moveTo_witness :
    ((moveTo c7fpSettings c7P c7TM).1.position = c7P ∧
     (moveTo c7fpSettings c7P c7TM).1.target = c7TM.target ∧
     (moveTo c7fpSettings c7P c7TM).2 = [Evt.update]) ∧
    ((moveTo c7tpSettings c7P c7TM).1.target = c7P ∧
     (moveTo c7tpSettings c7P c7TM).1.position = c7TM.position + (c7P - c7TM.target) ∧
     (moveTo c7tpSettings c7P c7TM).1.position - (moveTo c7tpSettings c7P c7TM).1.target
       = c7TM.position - c7TM.target ∧
     (moveTo c7tpSettings c7P c7TM).2 = [Evt.update]) :=
  ⟨(c7_moveTo c7fpSettings c7P c7TM).1 rfl, (c7_moveTo c7tpSettings c7P c7TM).2 rfl⟩

/-- Claim C8: when translation is disabled in the settings, `update` leaves
position, target and quaternion unchanged, dispatches no event, and still
advances the internal timestamp baseline to the given timestamp. -/
theorem c8_disabled_update (s : Settings) (state : MovementState) (st : TMState) (ts : ℚ)
    (h : s.translation.enabled = false) :
    (tmUpdate s state st ts).1.position = st.position ∧
    (tmUpdate s state st ts).1.target = st.target ∧
    (tmUpdate s state st ts).1.quaternion = st.quaternion ∧
    (tmUpdate s state st ts).2 = ([] : List Evt) ∧
    (tmUpdate s state st ts).1.timestamp = ts := by
  simp [tmUpdate, h]

/-- Settings with translation disabled. -/
def c8Settings : Settings := ⟨⟨false, 2, 2⟩, ⟨.firstPerson, .firstPerson⟩⟩

/-- Witness for C8: a disabled update keeps the position and advances the
timestamp. -/
theorem c8_disabled_update_witness :
    c8Settings.translation.enabled = false ∧
    (tmUpdate c8Settings c2State c2TM 750).1.position = c2TM.position ∧
    (tmUpdate c8Settings c2State c2TM 750).1.timestamp = 750 :=
  ⟨rfl, (c8_disabled_update c8Settings c2State c2TM 750 rfl).1,
   (c8_disabled_update c8Settings c2State c2TM 750 rfl).2.2.2.2⟩

/-- Claim C9: within one controller `update`, the translation manager
consumes exactly the state produced by the rotation manager's update: for
every rotation update function, the axis directions of the translation step
are rotated by the post-rotation quaternion, and that quaternion is what the
frame ends with. -/
theorem c9_rotation_settles_first (rmU : TMState → ℚ → TMState) (s : Settings)
    (state : MovementState) (st : TMState) (ts : ℚ)
    (h : s.translation.enabled = true) :
    (scUpdate rmU s state st ts).1.position =
      (rmU st ts).position
      + axisCoeff state.backward state.forward state.backwardBeforeForward
          (tstep s state ((ts - (rmU st ts).timestamp) * MILLISECONDS_TO_SECONDS)) •
          applyQuaternion (rmU st ts).quaternion axes.z
      + axisCoeff state.right state.left state.rightBeforeLeft
          (tstep s state ((ts - (rmU st ts).timestamp) * MILLISECONDS_TO_SECONDS)) •
          applyQuaternion (rmU st ts).quaternion axes.x
      + axisCoeff state.up state.down state.upBeforeDown
          (tstep s state ((ts - (rmU st ts).timestamp) * MILLISECONDS_TO_SECONDS)) •
          applyQuaternion (rmU st ts).quaternion axes.y ∧
    (scUpdate rmU s state st ts).1.quaternion = (rmU st ts).quaternion := by
  unfold scUpdate
  rw [tmUpdate_enabled s state (rmU st ts) ts h]
  exact ⟨translate_position s state _ (rmU st ts),
    translate_quaternion s state _ (rmU st ts)⟩

/-- A rotation update that replaces the quaternion with a half turn. -/
def c9rmU : TMState → ℚ → TMState := fun st _ => { st with quaternion := ⟨0, 0, 1, 0⟩ }

/-- Witness for C9: with a rotation update that changes the orientation, the
frame's final quaternion is the post-rotation one. -/
theorem c9_rotation_settles_first_witness :
    c2Settings.translation.enabled = true ∧
    (scUpdate c9rmU c2Settings c2State c2TM 500).1.quaternion = (⟨0, 0, 1, 0⟩ : Quat) :=
  ⟨rfl, (c9_rotation_settles_first c9rmU c2Settings c2State c2TM 500 rfl).2⟩

/-- A JSON fixture whose `maxDistance` is the falsy number `0`. -/
def c10Json : ZoomSettingsJSON := ⟨true, false, .fin 1, .fin 0, .fin 1⟩

/-- Claim C10: `fromJSON` copies `enabled`, `inverted`, `minDistance` and
`sensitivity` verbatim, coerces a falsy `maxDistance` (in particular `0`) to
positive infinity and keeps a truthy one; consequently the `toJSON` /
`fromJSON` round trip is not the identity on a settings object whose
`maxDistance` is `0`. -/
theorem c10_fromJSON_coercion (j : ZoomSettingsJSON) :
    (fromJSON j).enabled = j.enabled ∧
    (fromJSON j).inverted = j.inverted ∧
    (fromJSON j).minDistance = j.minDistance ∧
    (fromJSON j).sensitivity = j.sensitivity ∧
    (jsTruthy j.maxDistance = true → (fromJSON j).maxDistance = j.maxDistance) ∧
    (jsTruthy j.maxDistance = false → (fromJSON j).maxDistance = .posInf) ∧
    fromJSON (toJSON (setRange (.fin 1) (.fin 0) zoomDefault))
      ≠ setRange (.fin 1) (.fin 0) zoomDefault := by
  refine ⟨rfl, rfl, rfl, rfl, ?_, ?_, ?_⟩
  · intro h
    simp [fromJSON, jsOr, h]
  · intro h
    simp [fromJSON, jsOr, h]
  · simp [fromJSON, toJSON, setRange, zoomDefault, jsOr, jsTruthy]

/-- Witness for C10: `fromJSON` turns the falsy `maxDistance` of `c10Json`
into positive infinity. -/
theorem c10_fromJSON_coercion_witness :
    jsTruthy c10Json.maxDistance = false ∧
    (fromJSON c10Json).maxDistance = JSNum.posInf :=
  ⟨by norm_num [c10Json, jsTruthy],
   (c10_fromJSON_coercion c10Json).2.2.2.2.2.1 (by norm_num [c10Json, jsTruthy])⟩

end DeltaControls
